import Mathlib

/-!
Shallow embedding of `src/llama-rs/src/loader_common.rs` (crate `llama-rs`):
the `FileType` quantization tag with its `i32` conversions and `Display`
implementation, the `LoadProgress` event type, the `LoadError` taxonomy and
the `From<FindAllModelFilesError> for LoadError` conversion.

Rust `i32` is modelled as `Int` (the source never overflows: all values in
play are small literals), `usize` as `Nat`, `Path`/`PathBuf` as `String`,
and external payload types (`std::io::Error`, `FromUtf8Error`,
`TryFromIntError`, `ggml_format::ContainerType`, `Hyperparameters`) as type
parameters, since the source treats them opaquely.
-/

namespace LlamaRs

/-- Embeds `enum FileType` (loader_common.rs lines 12-32): how the tensors
are stored in the GGML LLaMA model. Ten variants in declaration order. -/
inductive FileType : Type
  /-- All tensors are stored as f32. -/
  | F32
  /-- All tensors are mostly stored as f16 (the `#[default]` variant). -/
  | MostlyF16
  | MostlyQ4_0
  | MostlyQ4_1
  | MostlyQ4_2
  | MostlyQ4_3
  | MostlyQ5_0
  | MostlyQ5_1
  | MostlyQ8_0
  | MostlyQ8_1
  deriving DecidableEq, Fintype, Repr

/-- Embeds the `#[default]` attribute on `FileType::MostlyF16`. -/
instance : Inhabited FileType := ⟨FileType.MostlyF16⟩

/-- The declared variants of `FileType` in declaration order. -/
def fileTypeVariants : List FileType :=
  [FileType.F32, FileType.MostlyF16, FileType.MostlyQ4_0, FileType.MostlyQ4_1,
   FileType.MostlyQ4_2, FileType.MostlyQ4_3, FileType.MostlyQ5_0,
   FileType.MostlyQ5_1, FileType.MostlyQ8_0, FileType.MostlyQ8_1]

/-- Embeds `impl From<FileType> for i32` (loader_common.rs lines 33-48). -/
def fileTypeToI32 : FileType → Int
  | FileType.F32 => 0
  | FileType.MostlyF16 => 1
  | FileType.MostlyQ4_0 => 2
  | FileType.MostlyQ4_1 => 3
  | FileType.MostlyQ4_2 => 4
  | FileType.MostlyQ4_3 => 5
  | FileType.MostlyQ5_0 => 6
  | FileType.MostlyQ5_1 => 7
  | FileType.MostlyQ8_0 => 8
  | FileType.MostlyQ8_1 => 9

/-- Embeds `impl TryFrom<i32> for FileType` (loader_common.rs lines 49-67);
`type Error = ()` becomes `Except Unit`. -/
def fileTypeTryFrom (value : Int) : Except Unit FileType :=
  match value with
  | 0 => Except.ok FileType.F32
  | 1 => Except.ok FileType.MostlyF16
  | 2 => Except.ok FileType.MostlyQ4_0
  | 3 => Except.ok FileType.MostlyQ4_1
  | 4 => Except.ok FileType.MostlyQ4_2
  | 5 => Except.ok FileType.MostlyQ4_3
  | 6 => Except.ok FileType.MostlyQ5_0
  | 7 => Except.ok FileType.MostlyQ5_1
  | 8 => Except.ok FileType.MostlyQ8_0
  | 9 => Except.ok FileType.MostlyQ8_1
  | _ => Except.error ()

/-- Embeds `impl Display for FileType` (loader_common.rs lines 68-83). -/
def fileTypeDisplay : FileType → String
  | FileType.F32 => "f32"
  | FileType.MostlyF16 => "f16"
  | FileType.MostlyQ4_0 => "q4_0"
  | FileType.MostlyQ4_1 => "q4_1"
  | FileType.MostlyQ4_2 => "q4_2"
  | FileType.MostlyQ4_3 => "q4_3"
  | FileType.MostlyQ5_0 => "q5_0"
  | FileType.MostlyQ5_1 => "q5_1"
  | FileType.MostlyQ8_0 => "q8_0"
  | FileType.MostlyQ8_1 => "q8_1"

/-- Embeds `enum LoadProgress<'a>` (loader_common.rs lines 88-123): each
variant represents a step within the process of loading the model. The
external `Hyperparameters` type is the parameter `H`; `&Path` is `String`;
`usize` is `Nat`. Field order and names follow the source. -/
inductive LoadProgress (H : Type) : Type
  /-- The hyperparameters have been loaded from the model. -/
  | hyperparametersLoaded (hyperparameters : H)
  /-- The context has been created; carries its size in bytes. -/
  | contextSize (bytes : Nat)
  /-- A part of the model is being loaded. -/
  | partLoading (file : String) (current_part : Nat) (total_parts : Nat)
  /-- A tensor from the current part has been loaded. -/
  | partTensorLoaded (file : String) (current_tensor : Nat) (tensor_count : Nat)
  /-- A model part has finished fully loading. -/
  | partLoaded (file : String) (byte_size : Nat) (tensor_count : Nat)
  deriving DecidableEq

/-- Embeds `enum LoadError` (loader_common.rs lines 125-239). External payload
types are parameters: `ι` for `std::io::Error`, `υ` for
`std::string::FromUtf8Error`, `ν` for `std::num::TryFromIntError`, `κ` for
`ggml_format::ContainerType`. `i32` is `Int`, `u32`/`usize` are `Nat`,
`PathBuf` is `String`. Variants in declaration order with the source's
field names. -/
inductive LoadError (ι υ ν κ : Type) : Type
  /-- A file failed to open. -/
  | openFileFailed (source : ι) (path : String)
  /-- There is no parent path for a given path. -/
  | noParentPath (path : String)
  /-- Reading exactly `bytes` from a file failed. -/
  | readExactFailed (source : ι) (bytes : Nat)
  /-- A non-specific I/O error. -/
  | io (e : ι)
  /-- One of the strings encountered was not valid UTF-8. -/
  | invalidUtf8 (e : υ)
  /-- One of the integers encountered could not be converted. -/
  | invalidIntegerConversion (e : ν)
  /-- The storage-format header field had an invalid value; carries the raw `i32`. -/
  | unsupportedFileType (ftype : Int)
  /-- An invalid magic number was encountered. -/
  | invalidMagic (path : String) (magic : Nat)
  /-- The version of the format is not supported. -/
  | invalidFormatVersion (container_type : κ) (version : Nat)
  /-- The `f16` hyperparameter had an invalid value. -/
  | hyperparametersF16Invalid (ftype : Int)
  /-- The tensor `tensor_name` was not seen during the model prelude. -/
  | unknownTensor (tensor_name : String) (path : String)
  /-- The tensor `tensor_name` did not match its expected size. -/
  | tensorWrongSize (tensor_name : String) (path : String)
  /-- The tensor `tensor_name` did not have the expected format type. -/
  | unsupportedElementType (tensor_name : String) (ftype : Int) (path : String)
  /-- An invariant was broken. -/
  | invariantBroken (path : String) (invariant : String)
  /-- The model could not be created. -/
  | modelNotCreated (path : String)
  /-- Multiple parts of the model were found. -/
  | multipartNotSupported (paths : List String)

/-- Modelled from the spec: `crate::util::FindAllModelFilesError` is not under
src/; §3 and §4.3 describe it as a small closed set with two kinds, "no
parent path for this path" (carrying the path) and "an I/O failure occurred"
(carrying the I/O error), matching the two match arms of
`impl From<FindAllModelFilesError> for LoadError` in loader_common.rs
lines 240-247 (the source spells the second variant `IO`). -/
inductive FindAllModelFilesError (ι : Type) : Type
  /-- No parent path was found for the given path. -/
  | noParentPath (path : String)
  /-- An I/O error occurred during file discovery. -/
  | io (err : ι)

/-- Embeds `impl From<FindAllModelFilesError> for LoadError`
(loader_common.rs lines 240-247). -/
def loadErrorFromFindAllModelFilesError {ι υ ν κ : Type} :
    FindAllModelFilesError ι → LoadError ι υ ν κ
  | FindAllModelFilesError.noParentPath path => LoadError.noParentPath path
  | FindAllModelFilesError.io err => LoadError.io err

/-- Observation on the `LoadProgress` fields (loader_common.rs lines 88-123):
the zero-based position counter paired with its total carried by an event,
when the variant has such a pair (`current_part`/`total_parts` on
`PartLoading`, `current_tensor`/`tensor_count` on `PartTensorLoaded`). -/
def positionCounterPair {H : Type} : LoadProgress H → Option (Nat × Nat)
  | LoadProgress.partLoading _ current_part total_parts =>
      some (current_part, total_parts)
  | LoadProgress.partTensorLoaded _ current_tensor tensor_count =>
      some (current_tensor, tensor_count)
  | _ => none

/-- Modelled from the spec: the loading pipeline that emits progress events
is an external collaborator not under src/. §4.2 fixes, per part, the group
`PartLoading → PartTensorLoaded* → PartLoaded` with `current_tensor`
zero-based and bounded by the part's fixed `tensor_count`. -/
def partEvents {H : Type} (total_parts current_part : Nat) (file : String)
    (tensor_count byte_size : Nat) : List (LoadProgress H) :=
  LoadProgress.partLoading file current_part total_parts ::
    ((List.range tensor_count).map
        (fun t => LoadProgress.partTensorLoaded file t tensor_count) ++
      [LoadProgress.partLoaded file byte_size tensor_count])

/-- Modelled from the spec: §4.2's full event stream for a load,
`HyperparametersLoaded → ContextSize → (PartLoading → PartTensorLoaded* →
PartLoaded)+`, one group per part, parts in order. A part is given by its
file, its tensor count and its byte size. -/
def loadEventStream {H : Type} (hyperparameters : H) (ctx_bytes : Nat)
    (parts : List (String × Nat × Nat)) : List (LoadProgress H) :=
  LoadProgress.hyperparametersLoaded hyperparameters ::
    LoadProgress.contextSize ctx_bytes ::
      parts.enum.flatMap
        (fun p => partEvents parts.length p.1 p.2.1 p.2.2.1 p.2.2.2)

/-- The `current_tensor` values of the `PartTensorLoaded` events of a stream,
in delivery order. -/
def currentTensors {H : Type} (events : List (LoadProgress H)) : List Nat :=
  events.filterMap
    (fun e => match e with
      | LoadProgress.partTensorLoaded _ current_tensor _ => some current_tensor
      | _ => none)

/-! Helper lemmas shared by the theorems below. -/

/-- A successful decode always comes from the encoding of its result. -/
lemma fileTypeTryFrom_ok_toI32 (i : Int) (t : FileType)
    (h : fileTypeTryFrom i = Except.ok t) : fileTypeToI32 t = i := by
  unfold fileTypeTryFrom at h
  split at h <;> cases h <;> rfl

/-- Decoding any integer outside `[0, 10)` fails with `Err(())`. -/
lemma fileTypeTryFrom_out_of_range (i : Int) (h : i < 0 ∨ 10 ≤ i) :
    fileTypeTryFrom i = Except.error () := by
  unfold fileTypeTryFrom
  split <;> first | rfl | omega

/-- Decoding any integer inside `[0, 10)` succeeds. -/
lemma fileTypeTryFrom_in_range (i : Int) (h1 : 0 ≤ i) (h2 : i < 10) :
    ∃ t, fileTypeTryFrom i = Except.ok t := by
  interval_cases i <;> exact ⟨_, rfl⟩

/-- C1: the FileType/integer mapping is a bijection on the valid code range:
decoding the encoding of any declared tag returns that tag, and for every
integer in `[0, 10)` the decoded tag encodes back to that integer. -/
theorem fileType_intCode_bijection :
    (∀ t : FileType, fileTypeTryFrom (fileTypeToI32 t) = Except.ok t) ∧
    (∀ i : Int, 0 ≤ i → i < 10 →
      ∃ t, fileTypeTryFrom i = Except.ok t ∧ fileTypeToI32 t = i) := by
  constructor
  · intro t
    cases t <;> rfl
  · intro i h1 h2
    obtain ⟨t, ht⟩ := fileTypeTryFrom_in_range i h1 h2
    exact ⟨t, ht, fileTypeTryFrom_ok_toI32 i t ht⟩

/-- Witness for C1 at the tag `MostlyQ5_1` and the integer `7`. -/
theorem fileType_intCode_bijection_witness :
    fileTypeTryFrom (fileTypeToI32 FileType.MostlyQ5_1) =
        Except.ok FileType.MostlyQ5_1 ∧
    ∃ t, fileTypeTryFrom 7 = Except.ok t ∧ fileTypeToI32 t = 7 :=
  ⟨fileType_intCode_bijection.1 FileType.MostlyQ5_1,
   fileType_intCode_bijection.2 7 (by decide) (by decide)⟩

/-- C2: decoding any 32-bit integer outside `[0, 10)` — in particular every
negative integer and the integer 99 — returns `Err(())`: no tag and no
default tag is ever produced for an out-of-range code (the embedded decode
is a total function, so no panic is possible). -/
theorem fileType_decode_out_of_range_fails :
    (∀ i : Int, i < 0 ∨ 10 ≤ i → fileTypeTryFrom i = Except.error ()) ∧
    fileTypeTryFrom 99 = Except.error () ∧
    (∀ i : Int, i < 0 → fileTypeTryFrom i = Except.error ()) :=
  ⟨fun i h => fileTypeTryFrom_out_of_range i h, rfl,
   fun i h => fileTypeTryFrom_out_of_range i (Or.inl h)⟩

/-- Witness for C2 at the integers `10` and `-3`. -/
theorem fileType_decode_out_of_range_fails_witness :
    fileTypeTryFrom 10 = Except.error () ∧
    fileTypeTryFrom (-3) = Except.error () :=
  ⟨fileType_decode_out_of_range_fails.1 10 (by decide),
   fileType_decode_out_of_range_fails.2.2 (-3) (by decide)⟩

/-- C3: encoding is injective and equals the zero-based declaration index of
the variant, and the encodings of the declared tags, in declaration order,
are exactly `0, 1, …, 9` — the contiguous range with no gaps or
duplicates (the embedded encode is a total function of the tag alone, hence
total and pure). -/
theorem fileType_encode_injective_dense :
    (∀ a b : FileType, fileTypeToI32 a = fileTypeToI32 b → a = b) ∧
    (∀ t : FileType,
      (fileTypeVariants.indexOf t : Int) = fileTypeToI32 t) ∧
    fileTypeVariants.map fileTypeToI32 =
      (List.range 10).map (fun n => (n : Int)) := by
  refine ⟨?_, ?_, ?_⟩
  · decide
  · decide
  · decide

/-- Witness for C3: injectivity applied at `MostlyQ8_0`. -/
theorem fileType_encode_injective_dense_witness :
    FileType.MostlyQ8_0 = FileType.MostlyQ8_0 :=
  fileType_encode_injective_dense.1 FileType.MostlyQ8_0 FileType.MostlyQ8_0 rfl

/-- C4: the conversion from the file-discovery error type into `LoadError`
is total (it is a total function for every payload instantiation) and
exhaustive: every `FindAllModelFilesError` value is either the
no-parent-path kind, mapped to `LoadError.noParentPath` preserving the
path, or the I/O kind, mapped to `LoadError.io` preserving the underlying
I/O error — so no other `LoadError` variant is ever produced. -/
theorem findAllModelFilesError_absorption :
    ∀ (ι υ ν κ : Type) (e : FindAllModelFilesError ι),
      (∃ p, e = FindAllModelFilesError.noParentPath p ∧
        @loadErrorFromFindAllModelFilesError ι υ ν κ e =
          LoadError.noParentPath p) ∨
      (∃ x, e = FindAllModelFilesError.io x ∧
        @loadErrorFromFindAllModelFilesError ι υ ν κ e = LoadError.io x) := by
  intro ι υ ν κ e
  cases e with
  | noParentPath p => exact Or.inl ⟨p, rfl, rfl⟩
  | io x => exact Or.inr ⟨x, rfl, rfl⟩

/-- C5: the display mapping (a total function of the tag alone, hence pure
and constant across calls) sends every variant to a non-empty, fully
lowercase short name, is injective (all names distinct), renders the
full-precision variant as its float-width token `f32`, and renders each
block-quantized variant as `q<bits>_<variant>`. -/
theorem fileType_display_laws :
    (∀ t : FileType, fileTypeDisplay t ≠ "") ∧
    (∀ t : FileType, ∀ c ∈ (fileTypeDisplay t).data, c.isUpper = false) ∧
    (∀ a b : FileType, fileTypeDisplay a = fileTypeDisplay b → a = b) ∧
    fileTypeDisplay FileType.F32 = "f32" ∧
    fileTypeDisplay FileType.MostlyF16 = "f16" ∧
    fileTypeDisplay FileType.MostlyQ4_0 = "q4_0" ∧
    fileTypeDisplay FileType.MostlyQ4_1 = "q4_1" ∧
    fileTypeDisplay FileType.MostlyQ4_2 = "q4_2" ∧
    fileTypeDisplay FileType.MostlyQ4_3 = "q4_3" ∧
    fileTypeDisplay FileType.MostlyQ5_0 = "q5_0" ∧
    fileTypeDisplay FileType.MostlyQ5_1 = "q5_1" ∧
    fileTypeDisplay FileType.MostlyQ8_0 = "q8_0" ∧
    fileTypeDisplay FileType.MostlyQ8_1 = "q8_1" := by
  refine ⟨?_, ?_, ?_, rfl, rfl, rfl, rfl, rfl, rfl, rfl, rfl, rfl, rfl⟩
  · decide
  · decide
  · decide

/-- Witness for C5: injectivity of display applied at `MostlyQ4_2`. -/
theorem fileType_display_laws_witness :
    FileType.MostlyQ4_2 = FileType.MostlyQ4_2 :=
  fileType_display_laws.2.2.1 FileType.MostlyQ4_2 FileType.MostlyQ4_2 rfl

/-- C6 counterexample: not every LoadProgress variant carries a zero-based
position counter paired with its total — the `ContextSize` event carries
none (nor do `HyperparametersLoaded` and `PartLoaded`). -/
theorem loadProgress_counter_pair_counterexample :
    positionCounterPair (@LoadProgress.contextSize Unit 1024) = none ∧
    positionCounterPair (LoadProgress.hyperparametersLoaded ()) = none ∧
    positionCounterPair (@LoadProgress.partLoaded Unit "model.bin" 4096 32) =
      none :=
  ⟨rfl, rfl, rfl⟩

/-- C6 amended: exactly the per-part progress variants `PartLoading` and
`PartTensorLoaded` carry a zero-based position counter paired with its
total (`current_part`/`total_parts`, `current_tensor`/`tensor_count`);
`HyperparametersLoaded`, `ContextSize` and `PartLoaded` carry no such
pair. -/
theorem loadProgress_counter_pair_amended :
    ∀ (H : Type),
      (∀ (f : String) (c t : Nat),
        positionCounterPair (@LoadProgress.partLoading H f c t) = some (c, t)) ∧
      (∀ (f : String) (c t : Nat),
        positionCounterPair (@LoadProgress.partTensorLoaded H f c t) =
          some (c, t)) ∧
      (∀ h : H,
        positionCounterPair (LoadProgress.hyperparametersLoaded h) = none) ∧
      (∀ b : Nat, positionCounterPair (@LoadProgress.contextSize H b) = none) ∧
      (∀ (f : String) (b t : Nat),
        positionCounterPair (@LoadProgress.partLoaded H f b t) = none) :=
  fun _ =>
    ⟨fun _ _ _ => rfl, fun _ _ _ => rfl, fun _ => rfl, fun _ => rfl,
     fun _ _ _ => rfl⟩

/-- C7: the FileType tag set is closed with exactly ten variants — the ten
listed in `fileTypeVariants`, with no repetition — and the integers that
decode successfully are exactly those in `[0, 10)`. -/
theorem fileType_ten_variants_code_range :
    Fintype.card FileType = 10 ∧
    fileTypeVariants.Nodup ∧
    (∀ t : FileType, t ∈ fileTypeVariants) ∧
    (∀ i : Int, (∃ t, fileTypeTryFrom i = Except.ok t) ↔ 0 ≤ i ∧ i < 10) := by
  refine ⟨by decide, by decide, by decide, ?_⟩
  intro i
  constructor
  · rintro ⟨t, ht⟩
    have h := fileTypeTryFrom_ok_toI32 i t ht
    subst h
    cases t <;> exact ⟨by decide, by decide⟩
  · rintro ⟨h1, h2⟩
    exact fileTypeTryFrom_in_range i h1 h2

/-- C9: the default FileType is the mostly-half-precision variant
`MostlyF16`, whose integer code is 1 — in particular it is not the
variant with code 0. -/
theorem fileType_default_is_mostly_f16 :
    (default : FileType) = FileType.MostlyF16 ∧
    fileTypeToI32 (default : FileType) = 1 ∧
    (default : FileType) ≠ FileType.F32 ∧
    fileTypeToI32 (default : FileType) ≠ 0 := by
  refine ⟨rfl, rfl, by decide, by decide⟩

/-- C10: a failed decode carries no information: the result is always the
bare `Err(())` (the error component is the unit type), so any two
out-of-range inputs produce identical results and the rejected raw integer
cannot be recovered from the error — a caller wanting to report it (e.g.
in `UnsupportedFileType`) must retain it separately. -/
theorem fileType_decode_error_is_unit :
    ∀ i j : Int, i < 0 ∨ 10 ≤ i → j < 0 ∨ 10 ≤ j →
      fileTypeTryFrom i = Except.error () ∧
      fileTypeTryFrom i = fileTypeTryFrom j := by
  intro i j hi hj
  rw [fileTypeTryFrom_out_of_range i hi, fileTypeTryFrom_out_of_range j hj]
  exact ⟨rfl, rfl⟩

/-- C8: the modelled progress-event stream opens with
`HyperparametersLoaded` then `ContextSize`, followed by per-part groups of
`PartLoading`, the part's `PartTensorLoaded` events and `PartLoaded`;
within any part the `current_tensor` values are exactly
`0, 1, …, tensor_count-1` — strictly increasing, no repeats, no gaps —
and (shown here for a single-part load) the stream delivers each event
exactly once, in exactly the stated order. -/
theorem loadEventStream_ordering :
    (∀ (H : Type) (tp cp : Nat) (f : String) (n b : Nat),
      currentTensors (@partEvents H tp cp f n b) = List.range n) ∧
    (∀ (H : Type) (hp : H) (c : Nat) (f : String) (n b : Nat),
      loadEventStream hp c [(f, n, b)] =
        LoadProgress.hyperparametersLoaded hp ::
          LoadProgress.contextSize c ::
            LoadProgress.partLoading f 0 1 ::
              ((List.range n).map
                  (fun t => LoadProgress.partTensorLoaded f t n) ++
                [LoadProgress.partLoaded f b n]) ∧
      currentTensors (loadEventStream hp c [(f, n, b)]) = List.range n ∧
      (currentTensors (loadEventStream hp c [(f, n, b)])).Pairwise (· < ·) ∧
      (loadEventStream hp c [(f, n, b)]).Nodup) := by
  have hpart : ∀ (H : Type) (tp cp : Nat) (f : String) (n b : Nat),
      currentTensors (@partEvents H tp cp f n b) = List.range n := by
    intro H tp cp f n b
    simp only [partEvents, currentTensors, List.filterMap_cons,
      List.filterMap_append, List.filterMap_map]
    simp [Function.comp_def, List.filterMap_eq_map]
  refine ⟨hpart, ?_⟩
  intro H hp c f n b
  have hstream : loadEventStream hp c [(f, n, b)] =
      LoadProgress.hyperparametersLoaded hp ::
        LoadProgress.contextSize c ::
          LoadProgress.partLoading f 0 1 ::
            ((List.range n).map
                (fun t => LoadProgress.partTensorLoaded f t n) ++
              [LoadProgress.partLoaded f b n]) := by
    simp [loadEventStream, partEvents, List.enum]
  have htensors : currentTensors (loadEventStream hp c [(f, n, b)]) =
      List.range n := by
    rw [hstream]
    simp only [currentTensors, List.filterMap_cons, List.filterMap_append,
      List.filterMap_map]
    simp [Function.comp_def, List.filterMap_eq_map]
  refine ⟨hstream, htensors, ?_, ?_⟩
  · rw [htensors]
    exact List.pairwise_lt_range n
  · rw [hstream]
    have hinj : Function.Injective
        (fun t => @LoadProgress.partTensorLoaded H f t n) := by
      intro a b hab
      simpa using hab
    simp [List.nodup_cons, List.nodup_append, List.nodup_range,
      List.Nodup.map hinj, List.mem_map]

/-- Witness for C10 at the integers `99` and `-5`. -/
theorem fileType_decode_error_is_unit_witness :
    fileTypeTryFrom 99 = Except.error () ∧
    fileTypeTryFrom 99 = fileTypeTryFrom (-5) :=
  fileType_decode_error_is_unit 99 (-5) (by decide) (by decide)

end LlamaRs
